import Mathlib

/-!
Verification of the natural-language-to-feature extraction pipeline of
`app.py` (smart-chatbus).  The raw query is modelled as a list of
characters; Python's `str.lower`, substring test (`in`), `str.split`,
`int()` and the five hand-written time regexes / three date regexes of
`NLPProcessor` are embedded as executable Lean functions.  The regression
model, the category encoders and `pandas.to_datetime(...).toordinal()`
are external collaborators and are taken as parameters, as are the
`datetime.now()` values used for relative day/date resolution.
-/

/-- Raw text, as a list of characters (Python `str`). -/
abbrev Text := List Char

/-- ASCII lower-casing of one character (embedding of `str.lower` per char;
all keyword tables of the program are ASCII). -/
def pyLowerChar (c : Char) : Char :=
  if 65 ≤ c.toNat ∧ c.toNat ≤ 90 then Char.ofNat (c.toNat + 32) else c

/-- Embedding of Python `text.lower()`. -/
def pyLower (t : Text) : Text := t.map pyLowerChar

/-- If `n` is a prefix of `s`, return the remainder of `s`. -/
def stripPrefixC : Text → Text → Option Text
  | [], s => some s
  | _ :: _, [] => none
  | c :: cs, d :: ds => if c = d then stripPrefixC cs ds else none

/-- Embedding of Python `needle in hay` (substring containment). -/
def containsSub (needle : Text) : Text → Bool
  | [] => (stripPrefixC needle []).isSome
  | c :: rest => (stripPrefixC needle (c :: rest)).isSome || containsSub needle rest

/-- ASCII whitespace recognised by the regex class `\s`. -/
def isWS (c : Char) : Bool :=
  c = ' ' || c = Char.ofNat 9 || c = Char.ofNat 10 ||
  c = Char.ofNat 13 || c = Char.ofNat 11 || c = Char.ofNat 12

/-- A decimal digit character (`\d`, `str.isdigit` on ASCII). -/
def isDigitC (c : Char) : Bool := decide (48 ≤ c.toNat ∧ c.toNat ≤ 57)

/-- Numeric value of a digit character. -/
def digitVal (c : Char) : Nat := c.toNat - 48

/-- Embedding of Python `int()` on a string of decimal digits. -/
def parseNat (cs : Text) : Nat := cs.foldl (fun a c => a * 10 + digitVal c) 0

/-- `re.search`: try a pattern matcher at every start position, leftmost
match wins. -/
def scan {α : Type} (f : Text → Option α) : Text → Option α
  | [] => none
  | c :: rest =>
    match f (c :: rest) with
    | some r => some r
    | none => scan f rest

/-- First table entry whose key occurs as a substring wins (Python
`for k, v in table.items(): if k in text: return v`). -/
def firstMatch (tbl : List (Text × String)) (tl : Text) : Option String :=
  match tbl with
  | [] => none
  | (k, v) :: rest => if containsSub k tl then some v else firstMatch rest tl

/-- Decimal digit string of `n` (fuel-driven so it computes by `rfl`);
embedding of Python decimal formatting of a nonnegative int. -/
def digitsOfAux : Nat → Nat → Text
  | 0, _ => []
  | fuel + 1, n =>
    if n < 10 then [Nat.digitChar n]
    else digitsOfAux fuel (n / 10) ++ [Nat.digitChar (n % 10)]

/-- Decimal digit string of `n`. -/
def digitsOf (n : Nat) : Text := digitsOfAux (n + 1) n

/-- Embedding of the format `f"{n:02d}"`. -/
def pad2 (n : Nat) : Text := if n < 10 then '0' :: digitsOf n else digitsOf n

/-- Embedding of `f"{hour:02d}:{minute:02d}"`. -/
def fmtTime (hour minute : Nat) : String := ⟨pad2 hour ++ ':' :: pad2 minute⟩

/-- Embedding of Python `str.zfill(2)`. -/
def zfill2 (g : Text) : Text := List.replicate (2 - g.length) '0' ++ g

/-- Greedy `\d{1,2}`: numeric value of one or two leading digits.  In every
pattern of the program the group is followed by a token that can never match
a digit (`:`, `-`, `/`, whitespace-then-letter, or pattern end), so the
maximal munch is exactly Python's greedy-with-backtracking behaviour. -/
def takeDigits12 (s : Text) : Option (Nat × Text) :=
  match s with
  | [] => none
  | [c1] => if isDigitC c1 then some (digitVal c1, []) else none
  | c1 :: c2 :: rest2 =>
    if isDigitC c1 then
      if isDigitC c2 then some (digitVal c1 * 10 + digitVal c2, rest2)
      else some (digitVal c1, c2 :: rest2)
    else none

/-- `\d{2}`: exactly two digits. -/
def take2 (s : Text) : Option (Nat × Text) :=
  match s with
  | c1 :: c2 :: rest =>
    if isDigitC c1 && isDigitC c2 then some (digitVal c1 * 10 + digitVal c2, rest)
    else none
  | _ => none

/-- `\s+` followed by greedy skip of the whole whitespace run (the next
pattern token is never a whitespace character, so this is exact). -/
def wsPlus (s : Text) : Option Text :=
  match s with
  | [] => none
  | c :: rest => if isWS c then some (rest.dropWhile isWS) else none

/-- Pattern `(\d{1,2}):(\d{2})\s*(am|pm)?` at one position: hour, minute and
the optional am/pm capture (group 3). -/
def matchTime1 (s : Text) : Option (Nat × Nat × Option String) :=
  match takeDigits12 s with
  | none => none
  | some (h, s1) =>
    match stripPrefixC ":".data s1 with
    | none => none
    | some s2 =>
      match take2 s2 with
      | none => none
      | some (m, s3) =>
        match stripPrefixC "am".data (s3.dropWhile isWS) with
        | some _ => some (h, m, some "am")
        | none =>
          match stripPrefixC "pm".data (s3.dropWhile isWS) with
          | some _ => some (h, m, some "pm")
          | none => some (h, m, none)

/-- Pattern `(\d{1,2})\s*(am|pm)` at one position: hour and the am/pm
capture, which is group 2 of this pattern. -/
def matchTime2 (s : Text) : Option (Nat × String) :=
  match takeDigits12 s with
  | none => none
  | some (h, s1) =>
    match stripPrefixC "am".data (s1.dropWhile isWS) with
    | some _ => some (h, "am")
    | none =>
      match stripPrefixC "pm".data (s1.dropWhile isWS) with
      | some _ => some (h, "pm")
      | none => none

/-- Pattern `at\s+(\d{1,2}):(\d{2})` at one position. -/
def matchTime3 (s : Text) : Option (Nat × Nat) :=
  match stripPrefixC "at".data s with
  | none => none
  | some s1 =>
    match wsPlus s1 with
    | none => none
    | some s2 =>
      match takeDigits12 s2 with
      | none => none
      | some (h, s3) =>
        match stripPrefixC ":".data s3 with
        | none => none
        | some s4 =>
          match take2 s4 with
          | none => none
          | some (m, _) => some (h, m)

/-- Pattern `saa\s+(\d{1,2})` at one position (Swahili "at hour H"). -/
def matchTime4 (s : Text) : Option Nat :=
  match stripPrefixC "saa".data s with
  | none => none
  | some s1 =>
    match wsPlus s1 with
    | none => none
    | some s2 =>
      match takeDigits12 s2 with
      | none => none
      | some (h, _) => some h

/-- The apostrophe character. -/
def apos : Char := Char.ofNat 39

/-- Pattern `(\d{1,2})\s*o'?clock` at one position. -/
def matchTime5 (s : Text) : Option Nat :=
  match takeDigits12 s with
  | none => none
  | some (h, s1) =>
    match stripPrefixC "o".data (s1.dropWhile isWS) with
    | none => none
    | some s2 =>
      match stripPrefixC [apos] s2 with
      | some s3 =>
        match stripPrefixC "clock".data s3 with
        | some _ => some h
        | none => none
      | none =>
        match stripPrefixC "clock".data s2 with
        | some _ => some h
        | none => none

/-- Lines 108-113 of `app.py`: the 12h-to-24h conversion applied when the
pattern has more than two groups and group 3 was captured. -/
def apply_ampm (hour : Nat) (g3 : Option String) : Nat :=
  match g3 with
  | none => hour
  | some s =>
    if s = "pm" ∧ hour ≠ 12 then hour + 12
    else if s = "am" ∧ hour = 12 then 0
    else hour

/-- The named-time fallback table of `extract_time_from_text`
(insertion order of the Python dict). -/
def named_times : List (Text × String) :=
  [("morning".data, "08:00"), ("afternoon".data, "14:00"),
   ("evening".data, "18:00"), ("night".data, "20:00"),
   ("noon".data, "12:00"), ("midnight".data, "00:00"),
   ("dawn".data, "06:00"), ("dusk".data, "19:00"),
   ("asubuhi".data, "08:00"), ("mchana".data, "12:00"),
   ("jioni".data, "18:00"), ("usiku".data, "20:00")]

/-- `NLPProcessor.extract_time_from_text` (app.py lines 88-128).  The five
regexes are tried in order on the lowercased text; for the first match the
minute is group 2 when it is a digit capture (patterns 1 and 3) and 0
otherwise, and the am/pm conversion reads group 3, which only pattern 1
has - pattern 2's am/pm capture is group 2 and is never used. -/
def extract_time_from_text (t : Text) : String :=
  match scan matchTime1 (pyLower t) with
  | some (h, m, g3) => fmtTime (apply_ampm h g3) m
  | none =>
    match scan matchTime2 (pyLower t) with
    | some (h, _g2) => fmtTime h 0
    | none =>
      match scan matchTime3 (pyLower t) with
      | some (h, m) => fmtTime h m
      | none =>
        match scan matchTime4 (pyLower t) with
        | some h => fmtTime h 0
        | none =>
          match scan matchTime5 (pyLower t) with
          | some h => fmtTime h 0
          | none =>
            match firstMatch named_times (pyLower t) with
            | some v => v
            | none => "08:00"

/-- The server-known current date/time reference (`datetime.now()`), as the
day names and ISO date strings the program formats from it. -/
structure Now where
  todayName : String
  tomorrowName : String
  yesterdayName : String
  todayDate : String
  tomorrowDate : String
  yesterdayDate : String

/-- English day table of `extract_day_from_text` (dict insertion order). -/
def english_days : List (Text × String) :=
  [("monday".data, "Monday"), ("tuesday".data, "Tuesday"),
   ("wednesday".data, "Wednesday"), ("thursday".data, "Thursday"),
   ("friday".data, "Friday"), ("saturday".data, "Saturday"),
   ("sunday".data, "Sunday")]

/-- Swahili day table of `extract_day_from_text`. -/
def swahili_days : List (Text × String) :=
  [("jumatatu".data, "Monday"), ("jumanne".data, "Tuesday"),
   ("jumatano".data, "Wednesday"), ("alhamisi".data, "Thursday"),
   ("ijumaa".data, "Friday"), ("jumamosi".data, "Saturday"),
   ("jumapili".data, "Sunday")]

/-- `NLPProcessor.extract_day_from_text` (app.py lines 130-165). -/
def extract_day_from_text (now : Now) (t : Text) : String :=
  match firstMatch english_days (pyLower t) with
  | some d => d
  | none =>
    match firstMatch swahili_days (pyLower t) with
    | some d => d
    | none =>
      if containsSub "today".data (pyLower t) || containsSub "leo".data (pyLower t) then
        now.todayName
      else if containsSub "tomorrow".data (pyLower t) || containsSub "kesho".data (pyLower t) then
        now.tomorrowName
      else if containsSub "yesterday".data (pyLower t) || containsSub "jana".data (pyLower t) then
        now.yesterdayName
      else now.todayName

/-- Weather keyword table of `extract_weather_from_text` (dict order). -/
def weather_keywords : List (Text × String) :=
  [("sunny".data, "Sunny"), ("rain".data, "Rainy"), ("rainy".data, "Rainy"),
   ("cloudy".data, "Cloudy"), ("clear".data, "Sunny"), ("storm".data, "Rainy"),
   ("drizzle".data, "Rainy"), ("mvua".data, "Rainy"), ("jua".data, "Sunny"),
   ("mawingo".data, "Cloudy")]

/-- `NLPProcessor.extract_weather_from_text` (app.py lines 167-182). -/
def extract_weather_from_text (t : Text) : String :=
  match firstMatch weather_keywords (pyLower t) with
  | some w => w
  | none => "Sunny"

/-- Pattern `(\d{4})-(\d{1,2})-(\d{1,2})` at one position; the three
captured digit groups are returned verbatim. -/
def takeDigits4 (s : Text) : Option (Text × Text) :=
  match s with
  | c1 :: c2 :: c3 :: c4 :: rest =>
    if isDigitC c1 && isDigitC c2 && isDigitC c3 && isDigitC c4 then
      some ([c1, c2, c3, c4], rest)
    else none
  | _ => none

/-- Greedy `\d{1,2}` keeping the captured characters. -/
def takeDigits12C (s : Text) : Option (Text × Text) :=
  match s with
  | [] => none
  | c1 :: rest =>
    if isDigitC c1 then
      match rest with
      | c2 :: rest2 =>
        if isDigitC c2 then some ([c1, c2], rest2) else some ([c1], rest)
      | [] => some ([c1], [])
    else none

/-- Pattern `(\d{4})-(\d{1,2})-(\d{1,2})` at one position. -/
def matchDate1 (s : Text) : Option (Text × Text × Text) :=
  match takeDigits4 s with
  | none => none
  | some (y, s1) =>
    match stripPrefixC "-".data s1 with
    | none => none
    | some s2 =>
      match takeDigits12C s2 with
      | none => none
      | some (mo, s3) =>
        match stripPrefixC "-".data s3 with
        | none => none
        | some s4 =>
          match takeDigits12C s4 with
          | none => none
          | some (d, _) => some (y, mo, d)

/-- Pattern `(\d{1,2})/(\d{1,2})/(\d{4})` at one position. -/
def matchDate2 (s : Text) : Option (Text × Text × Text) :=
  match takeDigits12C s with
  | none => none
  | some (mo, s1) =>
    match stripPrefixC "/".data s1 with
    | none => none
    | some s2 =>
      match takeDigits12C s2 with
      | none => none
      | some (d, s3) =>
        match stripPrefixC "/".data s3 with
        | none => none
        | some s4 =>
          match takeDigits4 s4 with
          | none => none
          | some (y, _) => some (mo, d, y)

/-- Pattern `(\d{1,2})-(\d{1,2})-(\d{4})` at one position. -/
def matchDate3 (s : Text) : Option (Text × Text × Text) :=
  match takeDigits12C s with
  | none => none
  | some (mo, s1) =>
    match stripPrefixC "-".data s1 with
    | none => none
    | some s2 =>
      match takeDigits12C s2 with
      | none => none
      | some (d, s3) =>
        match stripPrefixC "-".data s3 with
        | none => none
        | some s4 =>
          match takeDigits4 s4 with
          | none => none
          | some (y, _) => some (mo, d, y)

/-- `NLPProcessor.extract_date_from_text` (app.py lines 184-213): the first
pattern yields `YYYY-MM-DD` with month/day zero-filled; the other two yield
`{year}-{g1.zfill(2)}-{g2.zfill(2)}`; relative keywords fall back to the
server date and the final default is today. -/
def extract_date_from_text (now : Now) (t : Text) : String :=
  match scan matchDate1 (pyLower t) with
  | some (y, mo, d) => ⟨y ++ '-' :: zfill2 mo ++ '-' :: zfill2 d⟩
  | none =>
    match scan matchDate2 (pyLower t) with
    | some (mo, d, y) => ⟨y ++ '-' :: zfill2 mo ++ '-' :: zfill2 d⟩
    | none =>
      match scan matchDate3 (pyLower t) with
      | some (mo, d, y) => ⟨y ++ '-' :: zfill2 mo ++ '-' :: zfill2 d⟩
      | none =>
        if containsSub "today".data (pyLower t) || containsSub "leo".data (pyLower t) then
          now.todayDate
        else if containsSub "tomorrow".data (pyLower t) || containsSub "kesho".data (pyLower t) then
          now.tomorrowDate
        else if containsSub "yesterday".data (pyLower t) || containsSub "jana".data (pyLower t) then
          now.yesterdayDate
        else now.todayDate

/-- Python `s.split(sep)`, keeping empty segments. -/
def pySplit (sep : Char) : Text → List Text
  | [] => [[]]
  | c :: rest =>
    if c = sep then [] :: pySplit sep rest
    else
      match pySplit sep rest with
      | [] => [[c]]
      | p :: ps => (c :: p) :: ps

/-- `int(time_str.split(':')[0])` as used by `is_peak_hours` (the argument
is always the extractor's digit-formatted `HH:MM` output, on which Python
`int` succeeds). -/
def hour_of_time (s : String) : Nat := parseNat ((pySplit ':' s.data).headI)

/-- `NLPProcessor.is_peak_hours` (app.py lines 215-220). -/
def is_peak_hours (time_str : String) : String :=
  if (7 ≤ hour_of_time time_str ∧ hour_of_time time_str ≤ 9) ∨
     (17 ≤ hour_of_time time_str ∧ hour_of_time time_str ≤ 19) then "Yes" else "No"

/-- `NLPProcessor.is_weekend` (app.py lines 222-225). -/
def is_weekend (day : String) : String :=
  if day ∈ (["Saturday", "Sunday"] : List String) then "Yes" else "No"

/-- Holiday keyword list of `is_holiday_from_text`. -/
def holiday_keywords : List Text :=
  ["holiday".data, "christmas".data, "new year".data, "easter".data,
   "sikukuu".data]

/-- `NLPProcessor.is_holiday_from_text` (app.py lines 227-232). -/
def is_holiday_from_text (t : Text) : String :=
  if holiday_keywords.any (fun k => containsSub k (pyLower t)) then "Yes" else "No"

/-- The structured query assembled by `extract_structured_data`. -/
structure StructuredData where
  date : String
  time : String
  day : String
  weather : String
  peak_hours : String
  weekends : String
  holidays : String
deriving DecidableEq

/-- `NLPProcessor.extract_structured_data` (app.py lines 234-270).  Only the
`try` branch is modelled: every extractor is a total function on text, so
the `except` branch (safe defaults with time `08:00` and peak `No`) is
unreachable. -/
def extract_structured_data (now : Now) (prompt : Text) : StructuredData :=
  let date_str := extract_date_from_text now prompt
  let time_str := extract_time_from_text prompt
  let day := extract_day_from_text now prompt
  let weather := extract_weather_from_text prompt
  let holidays := is_holiday_from_text prompt
  let peak_hours := is_peak_hours time_str
  let weekends := is_weekend day
  ⟨date_str, time_str, day, weather, peak_hours, weekends, holidays⟩

/-- Swahili keyword list of `detect_language` (app.py lines 39-45). -/
def swahili_language_keywords : List Text :=
  ["je".data, "saa".data, "jumamosi".data, "jumapili".data, "jumatatu".data,
   "jumanne".data, "jumatano".data, "alhamisi".data, "ijumaa".data,
   "abiria".data, "basi".data, "leo".data, "kesho".data, "jana".data,
   "mchana".data, "usiku".data, "asubuhi".data, "jioni".data, "mvua".data,
   "jua".data, "baridi".data, "ni".data, "kuna".data, "ngapi".data,
   "idadi".data, "watu".data, "wengi".data, "wachache".data,
   "ninaweza".data, "naomba".data, "tafadhali".data, "samahani".data,
   "karibu".data]

/-- `NLPProcessor.detect_language` (app.py lines 36-50): Swahili iff at
least one keyword occurs as a substring of the lowercased text. -/
def detect_language (t : Text) : String :=
  if 0 < swahili_language_keywords.countP (fun w => containsSub w (pyLower t)) then
    "Swahili"
  else "English"

/-- English prediction keywords of `is_prediction_request`. -/
def english_keywords : List Text :=
  ["passenger".data, "passengers".data, "people".data, "crowd".data,
   "crowded".data, "busy".data, "how many".data, "predict".data,
   "forecast".data, "expect".data, "anticipate".data, "will there be".data,
   "going to be".data, "travel time".data, "best time".data,
   "when to travel".data, "avoid crowds".data, "less crowded".data,
   "peak".data, "rush".data]

/-- Swahili prediction keywords of `is_prediction_request`. -/
def swahili_pred_keywords : List Text :=
  ["abiria".data, "watu".data, "idadi".data, "ngapi".data, "wengi".data,
   "wachache".data, "msongamano".data, "kujaa".data, "tupu".data,
   "wakati".data, "bora".data, "mzuri".data, "kusafiri".data, "basi".data,
   "gari".data, "hatua".data]

/-- The word "o'clock" (with apostrophe). -/
def oclockWord : Text := 'o' :: apos :: "clock".data

/-- Time/day indicator list of `is_prediction_request`. -/
def time_indicators : List Text :=
  ["monday".data, "tuesday".data, "wednesday".data, "thursday".data,
   "friday".data, "saturday".data, "sunday".data,
   "jumatatu".data, "jumanne".data, "jumatano".data, "alhamisi".data,
   "ijumaa".data, "jumamosi".data, "jumapili".data,
   "morning".data, "afternoon".data, "evening".data, "night".data,
   "asubuhi".data, "mchana".data, "jioni".data, "usiku".data,
   "today".data, "tomorrow".data, "yesterday".data, "leo".data,
   "kesho".data, "jana".data,
   "am".data, "pm".data, oclockWord, "saa".data, ":".data,
   "1".data, "2".data, "3".data, "4".data, "5".data, "6".data, "7".data,
   "8".data, "9".data, "10".data, "11".data, "12".data]

/-- `NLPProcessor.is_prediction_request` (app.py lines 52-86). -/
def is_prediction_request (t : Text) : Bool :=
  let tl := pyLower t
  let has_prediction_keyword :=
    (english_keywords ++ swahili_pred_keywords).any (fun k => containsSub k tl)
  let has_time_indicator := time_indicators.any (fun k => containsSub k tl)
  has_prediction_keyword || has_time_indicator

/-- The word "what's up" (with apostrophe). -/
def whatsUpWord : Text := "what".data ++ apos :: "s up".data

/-- Greeting phrase list of `predict_from_prompt` (app.py lines 524-529). -/
def greetings : List Text :=
  ["hello".data, "hi".data, "hey".data, "good morning".data,
   "good afternoon".data, "good evening".data, "how are you".data,
   "how do you do".data, whatsUpWord, "howdy".data, "greetings".data,
   "introduce yourself".data, "who are you".data, "what are you".data,
   "what can you do".data, "habari".data, "mambo".data, "hujambo".data,
   "salamu".data, "shikamoo".data, "vipi".data, "sasa".data]

/-- Thank-you phrase list of `predict_from_prompt` (app.py lines 543-548). -/
def thank_you_phrases : List Text :=
  ["thank you".data, "thanks".data, "thank u".data, "thanku".data,
   "thx".data, "ty".data, "appreciate".data, "grateful".data, "nice".data,
   "good job".data, "well done".data, "awesome".data, "great".data,
   "perfect".data, "excellent".data, "amazing".data, "asante".data,
   "shukran".data, "gracias".data, "merci".data, "asanteni".data]

/-- The intent classification flow of `predict_from_prompt` (app.py lines
520-592) for a non-empty prompt: greeting keywords are checked first on the
lowercased prompt, then thank-you phrases, then `is_prediction_request`;
the first match decides the `message_type` of the response. -/
def message_type (prompt : Text) : String :=
  if greetings.any (fun g => containsSub g (pyLower prompt)) then "greeting"
  else if thank_you_phrases.any (fun g => containsSub g (pyLower prompt)) then
    "thank_you"
  else if is_prediction_request prompt then "prediction"
  else "fallback"

/-- The five label encoders loaded at startup (external collaborators);
`transform` raises on an out-of-vocabulary label, modelled as `Except`. -/
structure Encoders where
  day : String → Except String Int
  weather : String → Except String Int
  peak_hours : String → Except String Int
  weekends : String → Except String Int
  holidays : String → Except String Int

/-- Python `int()` on a string: succeeds on a non-empty digit string. -/
def parseNatE (cs : Text) : Except String Nat :=
  if cs ≠ [] ∧ cs.all isDigitC = true then .ok (parseNat cs)
  else .error "invalid literal for int with base 10"

/-- Lines 283-284 of `app.py`:
`time_parts = time.split(':'); int(time_parts[0]) * 60 + int(time_parts[1])`,
with the possible `IndexError`/`ValueError` made explicit. -/
def time_minutes_of (s : String) : Except String Nat :=
  match (pySplit ':' s.data)[0]? with
  | none => .error "IndexError"
  | some p0 =>
    match parseNatE p0 with
    | .error e => .error e
    | .ok a =>
      match (pySplit ':' s.data)[1]? with
      | none => .error "IndexError"
      | some p1 =>
        match parseNatE p1 with
        | .error e => .error e
        | .ok b => .ok (a * 60 + b)

/-- `training_feature_order` (app.py line 31): the feature order of the
trained model, used to reorder the DataFrame columns. -/
def training_feature_order : List String :=
  ["day", "weather", "time_value", "peak_hours", "weekends", "holidays",
   "date_ordinal"]

/-- The one-row DataFrame built at app.py lines 287-294, as a map from
column name to value. -/
def input_row (ord : Int) (tm : Nat) (dayC weatherC peakC weekendsC holidaysC : Int)
    (col : String) : Int :=
  if col = "date_ordinal" then ord
  else if col = "time_value" then (tm : Int)
  else if col = "day" then dayC
  else if col = "weather" then weatherC
  else if col = "peak_hours" then peakC
  else if col = "weekends" then weekendsC
  else if col = "holidays" then holidaysC
  else 0

/-- `input_data[training_feature_order]` (app.py line 295): the column
selection that produces the vector handed to the model. -/
def model_input (ord : Int) (tm : Nat)
    (dayC weatherC peakC weekendsC holidaysC : Int) : List Int :=
  training_feature_order.map (input_row ord tm dayC weatherC peakC weekendsC holidaysC)

/-- Lines 280-294 of `predict_passengers`: date ordinal via
`pd.to_datetime(...).toordinal()` (parameter `toOrd`), time minutes, then
the five encoder `transform` calls in DataFrame-dict order; the first
exception aborts the computation. -/
def gather_features (toOrd : String → Except String Int) (enc : Encoders)
    (sd : StructuredData) :
    Except String (Int × Nat × Int × Int × Int × Int × Int) :=
  match toOrd sd.date with
  | .error e => .error e
  | .ok ord =>
    match time_minutes_of sd.time with
    | .error e => .error e
    | .ok tm =>
      match enc.day sd.day with
      | .error e => .error e
      | .ok dayC =>
        match enc.weather sd.weather with
        | .error e => .error e
        | .ok weatherC =>
          match enc.peak_hours sd.peak_hours with
          | .error e => .error e
          | .ok peakC =>
            match enc.weekends sd.weekends with
            | .error e => .error e
            | .ok weekendsC =>
              match enc.holidays sd.holidays with
              | .error e => .error e
              | .ok holidaysC =>
                .ok (ord, tm, dayC, weatherC, peakC, weekendsC, holidaysC)

/-- The `try` body of `XGBoostPredictor.predict_passengers` (app.py lines
278-298): assemble the feature vector in training order and call the model
(`pf` stands for `int(round(model.predict(input_data)[0]))`, which may also
raise). -/
def predict_core (toOrd : String → Except String Int) (enc : Encoders)
    (pf : List Int → Except String Int) (sd : StructuredData) :
    Except String Int :=
  match gather_features toOrd enc sd with
  | .error e => .error e
  | .ok (ord, tm, dayC, weatherC, peakC, weekendsC, holidaysC) =>
    pf (model_input ord tm dayC weatherC peakC weekendsC holidaysC)

/-- `XGBoostPredictor.predict_passengers` (app.py lines 275-302): any
exception in the body is caught and the fixed fallback 43 returned. -/
def predict_passengers (toOrd : String → Except String Int) (enc : Encoders)
    (pf : List Int → Except String Int) (sd : StructuredData) : Int :=
  match predict_core toOrd enc pf sd with
  | .ok n => n
  | .error _ => 43

/-! Auxiliary lemmas about the text primitives. -/

theorem digitVal_digitChar (m : Nat) (hm : m < 10) :
    digitVal (Nat.digitChar m) = m := by
  interval_cases m <;> rfl

theorem isDigitC_digitChar (m : Nat) (hm : m < 10) :
    isDigitC (Nat.digitChar m) = true := by
  interval_cases m <;> rfl

theorem parseNat_append (xs : Text) (c : Char) :
    parseNat (xs ++ [c]) = parseNat xs * 10 + digitVal c := by
  simp [parseNat, List.foldl_append]

theorem parseNat_digitsOfAux :
    ∀ fuel n, n < fuel → parseNat (digitsOfAux fuel n) = n := by
  intro fuel
  induction fuel with
  | zero => intro n h; omega
  | succ f ih =>
    intro n h
    by_cases h10 : n < 10
    · simp only [digitsOfAux, if_pos h10]
      simp [parseNat, digitVal_digitChar n h10]
    · simp only [digitsOfAux, if_neg h10]
      rw [parseNat_append]
      have hdiv : n / 10 < f := by
        have h1 : n / 10 < n := Nat.div_lt_self (by omega) (by omega)
        omega
      rw [ih (n / 10) hdiv, digitVal_digitChar (n % 10) (Nat.mod_lt n (by omega))]
      omega

theorem digitsOfAux_digits :
    ∀ fuel n c, c ∈ digitsOfAux fuel n → isDigitC c = true := by
  intro fuel
  induction fuel with
  | zero => intro n c h; simp [digitsOfAux] at h
  | succ f ih =>
    intro n c h
    by_cases h10 : n < 10
    · simp only [digitsOfAux, if_pos h10, List.mem_singleton] at h
      subst h
      exact isDigitC_digitChar n h10
    · simp only [digitsOfAux, if_neg h10, List.mem_append, List.mem_singleton] at h
      rcases h with h | h
      · exact ih _ _ h
      · subst h
        exact isDigitC_digitChar _ (Nat.mod_lt n (by omega))

theorem digitsOfAux_ne_nil :
    ∀ fuel n, 0 < fuel → digitsOfAux fuel n ≠ [] := by
  intro fuel n h
  cases fuel with
  | zero => omega
  | succ f =>
    simp only [digitsOfAux]
    split <;> simp

theorem parseNat_pad2 (n : Nat) : parseNat (pad2 n) = n := by
  unfold pad2
  split
  · rw [show parseNat ('0' :: digitsOf n) = parseNat (digitsOf n) from rfl]
    exact parseNat_digitsOfAux (n + 1) n (by omega)
  · exact parseNat_digitsOfAux (n + 1) n (by omega)

theorem pad2_ne_nil (n : Nat) : pad2 n ≠ [] := by
  unfold pad2
  split
  · simp
  · exact digitsOfAux_ne_nil (n + 1) n (by omega)

theorem pad2_digits (n : Nat) : ∀ c ∈ pad2 n, isDigitC c = true := by
  intro c hc
  simp only [pad2, digitsOf] at hc
  split at hc
  · rcases List.mem_cons.mp hc with h | h
    · subst h; rfl
    · exact digitsOfAux_digits _ _ _ h
  · exact digitsOfAux_digits _ _ _ hc

theorem parseNatE_pad2 (n : Nat) : parseNatE (pad2 n) = .ok n := by
  have h1 : pad2 n ≠ [] := pad2_ne_nil n
  have h2 : (pad2 n).all isDigitC = true := by
    rw [List.all_eq_true]
    exact fun c hc => pad2_digits n c hc
  unfold parseNatE
  rw [if_pos ⟨h1, h2⟩, parseNat_pad2]

theorem pySplit_sepFree (sep : Char) :
    ∀ xs : Text, (∀ c ∈ xs, c ≠ sep) → pySplit sep xs = [xs] := by
  intro xs
  induction xs with
  | nil => intro _; rfl
  | cons c rest ih =>
    intro hx
    have hc : c ≠ sep := hx c (by simp)
    have ih2 := ih (fun d hd => hx d (by simp [hd]))
    simp only [pySplit, if_neg hc]
    rw [ih2]

theorem pySplit_append (sep : Char) (ys : Text) :
    ∀ xs : Text, (∀ c ∈ xs, c ≠ sep) →
      pySplit sep (xs ++ sep :: ys) = xs :: pySplit sep ys := by
  intro xs
  induction xs with
  | nil => intro _; simp [pySplit]
  | cons c rest ih =>
    intro hx
    have hc : c ≠ sep := hx c (by simp)
    have ih2 := ih (fun d hd => hx d (by simp [hd]))
    simp only [List.cons_append, pySplit, if_neg hc, List.append_eq]
    rw [ih2]

theorem digit_ne_colon (c : Char) (h : isDigitC c = true) : c ≠ ':' := by
  intro hc
  subst hc
  exact absurd h (by decide)

theorem pySplit_fmtTime (h m : Nat) :
    pySplit ':' (fmtTime h m).data = [pad2 h, pad2 m] := by
  show pySplit ':' (pad2 h ++ ':' :: pad2 m) = [pad2 h, pad2 m]
  rw [pySplit_append ':' (pad2 m) (pad2 h)
      (fun c hc => digit_ne_colon c (pad2_digits h c hc)),
    pySplit_sepFree ':' (pad2 m)
      (fun c hc => digit_ne_colon c (pad2_digits m c hc))]

theorem time_minutes_fmt (h m : Nat) :
    time_minutes_of (fmtTime h m) = .ok (h * 60 + m) := by
  unfold time_minutes_of
  rw [pySplit_fmtTime]
  simp [parseNatE_pad2]

theorem scan_some {α : Type} (f : Text → Option α) (P : α → Prop)
    (hf : ∀ s r, f s = some r → P r) :
    ∀ t r, scan f t = some r → P r := by
  intro t
  induction t with
  | nil => intro r h; simp [scan] at h
  | cons c rest ih =>
    intro r h
    simp only [scan] at h
    rcases hfc : f (c :: rest) with _ | v
    · rw [hfc] at h
      exact ih r h
    · rw [hfc] at h
      have hv : v = r := Option.some.inj h
      subst hv
      exact hf _ _ hfc

theorem digitVal_le (c : Char) (h : isDigitC c = true) : digitVal c ≤ 9 := by
  simp only [isDigitC, decide_eq_true_eq] at h
  unfold digitVal
  omega

theorem takeDigits12_le {s : Text} {n : Nat} {r : Text}
    (H : takeDigits12 s = some (n, r)) : n ≤ 99 := by
  cases s with
  | nil => simp [takeDigits12] at H
  | cons c1 rest =>
    cases rest with
    | nil =>
      simp only [takeDigits12] at H
      by_cases h1 : isDigitC c1 = true
      · rw [if_pos h1] at H
        have hb1 := digitVal_le c1 h1
        simp only [Option.some.injEq, Prod.mk.injEq] at H
        omega
      · rw [if_neg h1] at H
        exact absurd H (by simp)
    | cons c2 rest2 =>
      simp only [takeDigits12] at H
      by_cases h1 : isDigitC c1 = true
      · rw [if_pos h1] at H
        have hb1 := digitVal_le c1 h1
        by_cases h2 : isDigitC c2 = true
        · rw [if_pos h2] at H
          have hb2 := digitVal_le c2 h2
          simp only [Option.some.injEq, Prod.mk.injEq] at H
          omega
        · rw [if_neg h2] at H
          simp only [Option.some.injEq, Prod.mk.injEq] at H
          omega
      · rw [if_neg h1] at H
        exact absurd H (by simp)

theorem take2_le {s : Text} {n : Nat} {r : Text}
    (H : take2 s = some (n, r)) : n ≤ 99 := by
  cases s with
  | nil => simp [take2] at H
  | cons c1 rest =>
    cases rest with
    | nil => simp [take2] at H
    | cons c2 rest2 =>
      simp only [take2] at H
      by_cases hb : (isDigitC c1 && isDigitC c2) = true
      · rw [if_pos hb] at H
        rw [Bool.and_eq_true] at hb
        have hb1 := digitVal_le c1 hb.1
        have hb2 := digitVal_le c2 hb.2
        simp only [Option.some.injEq, Prod.mk.injEq] at H
        omega
      · rw [if_neg hb] at H
        exact absurd H (by simp)

theorem matchTime1_bounds {s : Text} {h m : Nat} {g3 : Option String}
    (H : matchTime1 s = some (h, m, g3)) : h ≤ 99 ∧ m ≤ 99 := by
  unfold matchTime1 at H
  split at H
  · exact absurd H (by simp)
  · rename_i h1 s1 heq1
    split at H
    · exact absurd H (by simp)
    · rename_i s2 heq2
      split at H
      · exact absurd H (by simp)
      · rename_i m1 s3 heq3
        have hb1 := takeDigits12_le heq1
        have hb3 := take2_le heq3
        split at H
        · simp only [Option.some.injEq, Prod.mk.injEq] at H
          obtain ⟨e1, e2, -⟩ := H
          omega
        · split at H
          · simp only [Option.some.injEq, Prod.mk.injEq] at H
            obtain ⟨e1, e2, -⟩ := H
            omega
          · simp only [Option.some.injEq, Prod.mk.injEq] at H
            obtain ⟨e1, e2, -⟩ := H
            omega

theorem matchTime2_le {s : Text} {h : Nat} {g : String}
    (H : matchTime2 s = some (h, g)) : h ≤ 99 := by
  unfold matchTime2 at H
  split at H
  · exact absurd H (by simp)
  · rename_i h1 s1 heq1
    have hb1 := takeDigits12_le heq1
    split at H
    · simp only [Option.some.injEq, Prod.mk.injEq] at H
      obtain ⟨e1, -⟩ := H
      omega
    · split at H
      · simp only [Option.some.injEq, Prod.mk.injEq] at H
        obtain ⟨e1, -⟩ := H
        omega
      · exact absurd H (by simp)

theorem matchTime3_bounds {s : Text} {h m : Nat}
    (H : matchTime3 s = some (h, m)) : h ≤ 99 ∧ m ≤ 99 := by
  unfold matchTime3 at H
  split at H
  · exact absurd H (by simp)
  · rename_i s1 heq1
    split at H
    · exact absurd H (by simp)
    · rename_i s2 heq2
      split at H
      · exact absurd H (by simp)
      · rename_i h1 s3 heq3
        split at H
        · exact absurd H (by simp)
        · rename_i s4 heq4
          split at H
          · exact absurd H (by simp)
          · rename_i m1 s5 heq5
            have hb1 := takeDigits12_le heq3
            have hb2 := take2_le heq5
            simp only [Option.some.injEq, Prod.mk.injEq] at H
            obtain ⟨e1, e2⟩ := H
            omega

theorem matchTime4_le {s : Text} {h : Nat}
    (H : matchTime4 s = some h) : h ≤ 99 := by
  unfold matchTime4 at H
  split at H
  · exact absurd H (by simp)
  · rename_i s1 heq1
    split at H
    · exact absurd H (by simp)
    · rename_i s2 heq2
      split at H
      · exact absurd H (by simp)
      · rename_i h1 s3 heq3
        have hb1 := takeDigits12_le heq3
        simp only [Option.some.injEq] at H
        omega

theorem matchTime5_le {s : Text} {h : Nat}
    (H : matchTime5 s = some h) : h ≤ 99 := by
  unfold matchTime5 at H
  split at H
  · exact absurd H (by simp)
  · rename_i h1 s1 heq1
    have hb1 := takeDigits12_le heq1
    split at H
    · exact absurd H (by simp)
    · rename_i s2 heq2
      split at H
      · rename_i s3 heq3
        split at H
        · simp only [Option.some.injEq] at H
          omega
        · exact absurd H (by simp)
      · split at H
        · simp only [Option.some.injEq] at H
          omega
        · exact absurd H (by simp)

theorem apply_ampm_le (h : Nat) (g3 : Option String) :
    apply_ampm h g3 ≤ h + 12 := by
  rcases g3 with _ | s
  · show h ≤ h + 12
    omega
  · show (if s = "pm" ∧ h ≠ 12 then h + 12
      else if s = "am" ∧ h = 12 then 0 else h) ≤ h + 12
    split
    · omega
    · split <;> omega

theorem firstMatch_snd :
    ∀ (tbl : List (Text × String)) (tl : Text) (v : String),
      firstMatch tbl tl = some v → v ∈ tbl.map Prod.snd := by
  intro tbl
  induction tbl with
  | nil => intro tl v h; simp [firstMatch] at h
  | cons p rest ih =>
    intro tl v h
    obtain ⟨k, w⟩ := p
    simp only [firstMatch] at h
    split at h
    · simp only [Option.some.injEq] at h
      subst h
      simp
    · simp only [List.map_cons]
      exact List.mem_cons_of_mem _ (ih tl v h)

theorem named_times_shape :
    ∀ v ∈ named_times.map Prod.snd, ∃ h m, v = fmtTime h m ∧ h ≤ 23 ∧ m = 0 := by
  intro v hv
  fin_cases hv
  · exact ⟨8, 0, rfl, by omega, rfl⟩
  · exact ⟨14, 0, rfl, by omega, rfl⟩
  · exact ⟨18, 0, rfl, by omega, rfl⟩
  · exact ⟨20, 0, rfl, by omega, rfl⟩
  · exact ⟨12, 0, rfl, by omega, rfl⟩
  · exact ⟨0, 0, rfl, by omega, rfl⟩
  · exact ⟨6, 0, rfl, by omega, rfl⟩
  · exact ⟨19, 0, rfl, by omega, rfl⟩
  · exact ⟨8, 0, rfl, by omega, rfl⟩
  · exact ⟨12, 0, rfl, by omega, rfl⟩
  · exact ⟨18, 0, rfl, by omega, rfl⟩
  · exact ⟨20, 0, rfl, by omega, rfl⟩

theorem extract_time_shape (t : Text) :
    ∃ h m, extract_time_from_text t = fmtTime h m ∧ h ≤ 111 ∧ m ≤ 99 := by
  unfold extract_time_from_text
  cases h1 : scan matchTime1 (pyLower t) with
  | some r =>
    obtain ⟨h, m, g3⟩ := r
    have hb := scan_some matchTime1
      (fun r => r.1 ≤ 99 ∧ r.2.1 ≤ 99)
      (fun s r hr => by
        obtain ⟨a, b, c⟩ := r
        exact matchTime1_bounds hr) _ _ h1
    refine ⟨apply_ampm h g3, m, rfl, ?_, hb.2⟩
    have := apply_ampm_le h g3
    omega
  | none =>
    cases h2 : scan matchTime2 (pyLower t) with
    | some r =>
      obtain ⟨h, g⟩ := r
      have hb := scan_some matchTime2 (fun r => r.1 ≤ 99)
        (fun s r hr => by obtain ⟨a, b⟩ := r; exact matchTime2_le hr) _ _ h2
      exact ⟨h, 0, rfl, by omega, by omega⟩
    | none =>
      cases h3 : scan matchTime3 (pyLower t) with
      | some r =>
        obtain ⟨h, m⟩ := r
        have hb := scan_some matchTime3 (fun r => r.1 ≤ 99 ∧ r.2 ≤ 99)
          (fun s r hr => by obtain ⟨a, b⟩ := r; exact matchTime3_bounds hr) _ _ h3
        exact ⟨h, m, rfl, by omega, hb.2⟩
      | none =>
        cases h4 : scan matchTime4 (pyLower t) with
        | some h =>
          have hb := scan_some matchTime4 (fun r => r ≤ 99)
            (fun s r hr => matchTime4_le hr) _ _ h4
          exact ⟨h, 0, rfl, by omega, by omega⟩
        | none =>
          cases h5 : scan matchTime5 (pyLower t) with
          | some h =>
            have hb := scan_some matchTime5 (fun r => r ≤ 99)
              (fun s r hr => matchTime5_le hr) _ _ h5
            exact ⟨h, 0, rfl, by omega, by omega⟩
          | none =>
            cases h6 : firstMatch named_times (pyLower t) with
            | some v =>
              have hv := firstMatch_snd named_times (pyLower t) v h6
              obtain ⟨h, m, he, hh, hm⟩ := named_times_shape v hv
              exact ⟨h, m, he, by omega, by omega⟩
            | none =>
              exact ⟨8, 0, rfl, by omega, by omega⟩

theorem stripPrefixC_map (f : Char → Char) :
    ∀ (n s r : Text), stripPrefixC n s = some r →
      stripPrefixC (n.map f) (s.map f) = some (r.map f) := by
  intro n
  induction n with
  | nil =>
    intro s r h
    simp only [stripPrefixC, Option.some.injEq] at h
    subst h
    simp [stripPrefixC]
  | cons c cs ih =>
    intro s r h
    cases s with
    | nil => simp [stripPrefixC] at h
    | cons d ds =>
      simp only [stripPrefixC] at h
      split at h
      · rename_i hcd
        subst hcd
        simp only [List.map_cons, stripPrefixC, if_pos rfl]
        exact ih ds r h
      · exact absurd h (by simp)

theorem containsSub_map (f : Char → Char) :
    ∀ (n s : Text), containsSub n s = true →
      containsSub (n.map f) (s.map f) = true := by
  intro n s
  induction s with
  | nil =>
    intro h
    simp only [containsSub] at h
    cases hs : stripPrefixC n [] with
    | none => rw [hs] at h; simp at h
    | some r =>
      have h2 := stripPrefixC_map f n [] r hs
      simp only [List.map_nil] at h2 ⊢
      simp only [containsSub, h2, Option.isSome_some]
  | cons c rest ih =>
    intro h
    simp only [containsSub, Bool.or_eq_true] at h
    rcases h with h | h
    · cases hs : stripPrefixC n (c :: rest) with
      | none => rw [hs] at h; simp at h
      | some r =>
        have h2 := stripPrefixC_map f n (c :: rest) r hs
        simp only [List.map_cons] at h2
        simp only [List.map_cons, containsSub, Bool.or_eq_true]
        left
        simp [h2]
    · simp only [List.map_cons, containsSub, Bool.or_eq_true]
      right
      exact ih h

/-! Concrete instances used by the scenario theorems and witnesses. -/

/-- The input of spec Scenario 1. -/
def prompt_monday : Text := "How many passengers on Monday at 8 AM?".data

/-- The input of spec Scenario 4. -/
def prompt_xmas : Text := "2025-12-25, will it be busy?".data

/-- A concrete server clock. -/
def now0 : Now :=
  ⟨"Wednesday", "Thursday", "Tuesday", "2025-10-08", "2025-10-09", "2025-10-07"⟩

/-- Encoders that accept every label, with distinct codes per feature. -/
def enc0 : Encoders :=
  ⟨fun _ => .ok 1, fun _ => .ok 2, fun _ => .ok 3, fun _ => .ok 4, fun _ => .ok 5⟩

/-- Encoders whose day encoder rejects its label (out-of-vocabulary). -/
def encBad : Encoders :=
  ⟨fun _ => .error "y contains previously unseen labels",
   fun _ => .ok 2, fun _ => .ok 3, fun _ => .ok 4, fun _ => .ok 5⟩

/-- A concrete date-ordinal function. -/
def toOrd0 : String → Except String Int := fun _ => .ok 739610

/-- A concrete model prediction function. -/
def pf0 : List Int → Except String Int := fun _ => .ok 50

/-- A concrete structured query. -/
def sd0 : StructuredData :=
  ⟨"2025-12-25", "08:30", "Monday", "Sunny", "Yes", "No", "No"⟩

/-! The ten claims. -/

/-- Claim C1: for every structured query, `predict_passengers` presents the
features to the regression model as a seven-column vector in exactly the
fixed order `[day_code, weather_code, time_minutes, peak_hours_code,
weekends_code, holidays_code, date_ordinal]`; whenever the gathering of the
feature values succeeds, the model function is called on precisely that
list, with no column permuted or omitted. -/
theorem predict_feature_order
    (toOrd : String → Except String Int) (enc : Encoders)
    (pf : List Int → Except String Int) (sd : StructuredData)
    (ord : Int) (tm : Nat) (dayC weatherC peakC weekendsC holidaysC : Int)
    (hg : gather_features toOrd enc sd =
      .ok (ord, tm, dayC, weatherC, peakC, weekendsC, holidaysC)) :
    predict_core toOrd enc pf sd =
      pf [dayC, weatherC, (tm : Int), peakC, weekendsC, holidaysC, ord] := by
  unfold predict_core
  rw [hg]
  rfl

/-- Witness for C1 at concrete inputs: the model receives
`[day, weather, time, peak, weekends, holidays, ordinal]`. -/
theorem predict_feature_order_witness :
    predict_core toOrd0 enc0 pf0 sd0 = pf0 [1, 2, 510, 3, 4, 5, 739610] :=
  predict_feature_order toOrd0 enc0 pf0 sd0 739610 510 1 2 3 4 5 (by rfl)

/-- Claim C2 (code evaluation): for the `H [am|pm]` pattern family the code
does NOT apply the 12h-to-24h conversion - the am/pm capture of that
pattern is group 2 while the conversion code reads group 3 - so `"8 pm"`
yields `"08:00"` (not `"20:00"`) and `"12 am"` yields `"12:00"` (not
`"00:00"`). -/
theorem extract_time_pm_no_conversion :
    extract_time_from_text "8 pm".data = "08:00" ∧
    extract_time_from_text "12 am".data = "12:00" := ⟨rfl, rfl⟩

/-- Counterexample to claim C3 as stated: on input `"at 23:99"` the time
extractor returns `"23:99"`, whose `time_minutes` is `1479 > 1439`. -/
theorem time_minutes_range_counterexample :
    extract_time_from_text "at 23:99".data = "23:99" ∧
    time_minutes_of (extract_time_from_text "at 23:99".data) = .ok 1479 ∧
    ¬(1479 ≤ 1439) := ⟨rfl, rfl, by omega⟩

/-- Claim C3 (amended): for every input text the extracted time string is of
the form `fmtTime h m` with hour `h ≤ 111` (two-digit capture plus the pm
offset) and minute `m ≤ 99` (two-digit capture), so `time_minutes`
evaluates without error to `h*60+m ≤ 6759`; the range `[0, 1439]` claimed
by the spec is not guaranteed. -/
theorem time_minutes_bounds (t : Text) :
    ∃ h m, extract_time_from_text t = fmtTime h m ∧ h ≤ 111 ∧ m ≤ 99 ∧
      time_minutes_of (extract_time_from_text t) = .ok (h * 60 + m) ∧
      h * 60 + m ≤ 6759 := by
  obtain ⟨h, m, he, hh, hm⟩ := extract_time_shape t
  refine ⟨h, m, he, hh, hm, ?_, by omega⟩
  rw [he]
  exact time_minutes_fmt h m

/-- Claim C4: for every prompt, the structured query has
`peak_hours = "Yes"` exactly when the hour of its `time` field is one of
7, 8, 9, 17, 18, 19 (the `except` branch of `extract_structured_data`,
which would return time `08:00` with peak `No`, is unreachable because
every extractor is total). -/
theorem peak_hours_iff (now : Now) (t : Text) :
    (extract_structured_data now t).peak_hours = "Yes" ↔
      hour_of_time (extract_structured_data now t).time ∈
        ([7, 8, 9, 17, 18, 19] : List Nat) := by
  show is_peak_hours (extract_time_from_text t) = "Yes" ↔
    hour_of_time (extract_time_from_text t) ∈ ([7, 8, 9, 17, 18, 19] : List Nat)
  unfold is_peak_hours
  by_cases hc : (7 ≤ hour_of_time (extract_time_from_text t) ∧
      hour_of_time (extract_time_from_text t) ≤ 9) ∨
      (17 ≤ hour_of_time (extract_time_from_text t) ∧
       hour_of_time (extract_time_from_text t) ≤ 19)
  · rw [if_pos hc]
    simp only [List.mem_cons, List.not_mem_nil, or_false]
    constructor
    · intro _
      omega
    · intro _
      trivial
  · rw [if_neg hc]
    constructor
    · intro hno
      exact absurd hno (by decide)
    · intro hmem
      exfalso
      simp only [List.mem_cons, List.not_mem_nil, or_false] at hmem
      omega

/-- Claim C5: intent classification is first-match-wins in the order
Greeting, ThankYou, PredictionRequest, Fallback: a prompt whose lowercase
form contains a greeting phrase gets `message_type = "greeting"`
unconditionally, and a prompt with no greeting phrase but a thank-you
phrase gets `"thank_you"` even if it would also qualify as a prediction
request. -/
theorem message_type_precedence (p : Text) :
    (greetings.any (fun g => containsSub g (pyLower p)) = true →
      message_type p = "greeting") ∧
    (greetings.any (fun g => containsSub g (pyLower p)) = false →
      thank_you_phrases.any (fun g => containsSub g (pyLower p)) = true →
      message_type p = "thank_you") := by
  constructor
  · intro hg
    simp [message_type, hg]
  · intro hg ht
    simp [message_type, hg, ht]

/-- Witness for C5: a greeting-plus-prediction prompt is a greeting, and a
thank-you-plus-prediction prompt with no greeting phrase is a thank-you. -/
theorem message_type_precedence_witness :
    message_type "hello 8 am".data = "greeting" ∧
    message_type "thanks 8".data = "thank_you" :=
  ⟨(message_type_precedence "hello 8 am".data).1 (by decide),
   (message_type_precedence "thanks 8".data).2 (by decide) (by decide)⟩

/-- Claim C6 (spec Scenario 1): on `"How many passengers on Monday at
8 AM?"` the pipeline yields day `Monday`, time `08:00`, peak hours `Yes`,
weekends `No`, weather `Sunny`, a prediction-request intent, and detected
language English, for any server clock. -/
theorem scenario_monday_eight_am (now : Now) :
    (extract_structured_data now prompt_monday).day = "Monday" ∧
    (extract_structured_data now prompt_monday).time = "08:00" ∧
    (extract_structured_data now prompt_monday).peak_hours = "Yes" ∧
    (extract_structured_data now prompt_monday).weekends = "No" ∧
    (extract_structured_data now prompt_monday).weather = "Sunny" ∧
    is_prediction_request prompt_monday = true ∧
    detect_language prompt_monday = "English" :=
  ⟨rfl, rfl, rfl, rfl, rfl, rfl, rfl⟩

/-- Claim C7: whenever the body of `predict_passengers` raises (date
parsing, time parsing, any encoder `transform`, or the model call), the
function returns the fixed fallback 43; being a total function into `Int`,
it propagates no exception to its caller. -/
theorem predict_passengers_fallback
    (toOrd : String → Except String Int) (enc : Encoders)
    (pf : List Int → Except String Int) (sd : StructuredData) (e : String)
    (he : predict_core toOrd enc pf sd = .error e) :
    predict_passengers toOrd enc pf sd = 43 := by
  unfold predict_passengers
  rw [he]

/-- Witness for C7: an out-of-vocabulary day label makes the prediction
return 43. -/
theorem predict_passengers_fallback_witness :
    predict_passengers toOrd0 encBad pf0 sd0 = 43 :=
  predict_passengers_fallback toOrd0 encBad pf0 sd0
    "y contains previously unseen labels" (by rfl)

/-- Claim C8: the structured query always satisfies `weekends = "Yes"` iff
its day field is `Saturday` or `Sunday`; and `is_weekend` answers `"Yes"`
exactly for those two of the seven day names (the unreachable `except`
branch aside, see C4). -/
theorem weekends_iff :
    (∀ (now : Now) (t : Text),
      (extract_structured_data now t).weekends = "Yes" ↔
        ((extract_structured_data now t).day = "Saturday" ∨
         (extract_structured_data now t).day = "Sunday")) ∧
    (∀ d : String, d ∈ english_days.map Prod.snd →
      (is_weekend d = "Yes" ↔ (d = "Saturday" ∨ d = "Sunday"))) := by
  have key : ∀ d : String, is_weekend d = "Yes" ↔ (d = "Saturday" ∨ d = "Sunday") := by
    intro d
    unfold is_weekend
    by_cases hd : d ∈ (["Saturday", "Sunday"] : List String)
    · rw [if_pos hd]
      simp only [List.mem_cons, List.not_mem_nil, or_false] at hd
      rcases hd with rfl | rfl
      · decide
      · decide
    · rw [if_neg hd]
      simp only [List.mem_cons, List.not_mem_nil, or_false] at hd
      push_neg at hd
      constructor
      · intro hno
        exact absurd hno (by decide)
      · intro hdisj
        rcases hdisj with rfl | rfl
        · exact absurd rfl hd.1
        · exact absurd rfl hd.2
  exact ⟨fun now t => key (extract_day_from_text now t), fun d _ => key d⟩

/-- Witness for C8 at concrete inputs. -/
theorem weekends_iff_witness :
    ((extract_structured_data now0 "saturday".data).weekends = "Yes" ↔
      ((extract_structured_data now0 "saturday".data).day = "Saturday" ∨
       (extract_structured_data now0 "saturday".data).day = "Sunday")) ∧
    (is_weekend "Monday" = "Yes" ↔
      ("Monday" = "Saturday" ∨ "Monday" = "Sunday")) :=
  ⟨weekends_iff.1 now0 "saturday".data, weekends_iff.2 "Monday" (by decide)⟩

/-- Claim C9 (spec Scenario 4): on `"2025-12-25, will it be busy?"` the
date extractor returns `2025-12-25` while the holiday flag is `No`; the
holiday flag depends only on keyword presence in the raw text (proved for
every text), never on the extracted date; and the text is classified as a
prediction request. -/
theorem scenario_date_holiday (now : Now) :
    extract_date_from_text now prompt_xmas = "2025-12-25" ∧
    is_holiday_from_text prompt_xmas = "No" ∧
    is_prediction_request prompt_xmas = true ∧
    (∀ t : Text, is_holiday_from_text t = "Yes" ↔
      holiday_keywords.any (fun k => containsSub k (pyLower t)) = true) := by
  refine ⟨rfl, rfl, rfl, fun t => ?_⟩
  unfold is_holiday_from_text
  cases hb : holiday_keywords.any (fun k => containsSub k (pyLower t)) <;> decide

/-- Counterexample to claim C10's example list: `"until"` does not contain
`"ni"` as a substring, and a purely English query consisting of it is
classified as English, not Swahili. -/
theorem detect_language_until_english :
    containsSub "ni".data "until".data = false ∧
    detect_language "until".data = "English" := by decide

/-- Claim C10 (amended): every input text containing `"ni"` as a substring
(such as queries with "night", "morning" or "evening", though not "until")
is classified as Swahili, because the Swahili keyword list contains the
two-letter word `"ni"` and detection is raw substring matching. -/
theorem detect_language_ni_swahili (t : Text)
    (h : containsSub "ni".data t = true) : detect_language t = "Swahili" := by
  have h2 : containsSub "ni".data (pyLower t) = true := by
    have h3 := containsSub_map pyLowerChar "ni".data t h
    rw [show "ni".data.map pyLowerChar = "ni".data from rfl] at h3
    exact h3
  unfold detect_language
  have hpos : 0 < swahili_language_keywords.countP
      (fun w => containsSub w (pyLower t)) :=
    List.countP_pos_iff.mpr ⟨"ni".data, by decide, h2⟩
  rw [if_pos hpos]

/-- Witness for C10: the English word "night" contains "ni" and is indeed
classified as Swahili. -/
theorem detect_language_ni_swahili_witness :
    detect_language "night".data = "Swahili" :=
  detect_language_ni_swahili "night".data (by decide)
